import Mathlib

/-!
Shallow embedding of the `curation` Django app of `serpent_mail`.

Embedded code:
* `curation/models.py` — `Article.calculate_reading_time`,
  `Article.fetch_and_summarize`, `Article.translate_summary_to_korean`,
  `Article.assign_categories`;
* `curation/admin.py` — the bulk admin action `summarize_selected_articles`.

External collaborators (the `WebBaseLoader`, the `readtime` library, the three
OpenAI completion chains, and `os.getenv("OPENAI_API_KEY")`) are modelled as
oracle fields of an `Env` record.  A raised exception of a collaborator is an
`Except.error` / a distinguished constructor of the oracle's result type.

The Django ORM side is modelled explicitly: `St.mem` is the in-memory
`Article` instance, `St.db` the persisted row, `St.dbCategories` the
many-to-many category associations of the article (updated immediately by
`clear()` / `add()`), `St.catTable` the set of persisted `Category` names, and
`St.saveLog` a trace of the `update_fields` lists of every `save()` call.
-/

namespace Curation

/-- Python `str.strip()`: drop whitespace from both ends. -/
def pyStrip (s : String) : String :=
  ⟨((s.data.dropWhile Char.isWhitespace).reverse.dropWhile Char.isWhitespace).reverse⟩

/-- Python `str.split(',')` (split on every comma, keeping empty pieces). -/
def splitCommaAux : List Char → List Char → List String
  | [], acc => [⟨acc.reverse⟩]
  | c :: rest, acc =>
      if c = ',' then ⟨acc.reverse⟩ :: splitCommaAux rest []
      else splitCommaAux rest (c :: acc)

/-- Python `s.split(',')` on a `String`. -/
def pySplitComma (s : String) : List String := splitCommaAux s.data []

/-- Python slicing `s[:n]` (by characters). -/
def pyTake (s : String) (n : Nat) : String := ⟨s.data.take n⟩

/-- Python `s.startswith(pre)`. -/
def startswith (s pre : String) : Bool := decide (pre.data <+: s.data)

/-- Python `pat in s` (substring containment). -/
def strContains (s pat : String) : Bool := decide (pat.data <:+: s.data)

/-- Python truthiness of `os.getenv(...)`: `None` and `""` are falsy. -/
def truthy : Option String → Bool
  | none => false
  | some k => k != ""

/-- One document returned by `WebBaseLoader.load()`: its `page_content` and
the `title` entry of its metadata (`none` when the key is absent). -/
structure Doc where
  page_content : String
  title_meta : Option String
deriving DecidableEq

/-- Result of `WebBaseLoader(url).load()`:
either a list of documents, or a raised exception, split by the exception
class that the `try/except` clauses of `fetch_and_summarize` distinguish. -/
inductive LoadResult where
  | requestError (msg : String)
  | importError (msg : String)
  | otherError (msg : String)
  | ok (docs : List Doc)
deriving DecidableEq

/-- The external world of one pipeline run: loader result, the `readtime`
library (`none` = raised exception), the `OPENAI_API_KEY` environment
variable, and the three completion chains (`Except.error` = raised
exception; for the summarize chain the payload of `Except.ok` is
`summary_result.get('output_text', '')`). -/
structure Env where
  load : LoadResult
  readtimeOf : String → Option Nat
  api_key : Option String
  summarize : List Doc → Except String String
  translate : String → Except String String
  categorize : String → Except String String

/-- The scalar fields of an `Article` row. -/
structure Article where
  url : String
  title : String
  summary : String
  summary_ko : String
  reading_time_minutes : Option Nat
deriving DecidableEq

/-- Full state of one article's world: in-memory instance, persisted row,
many-to-many category associations, the `Category` table, and the trace of
`save(update_fields=...)` calls. -/
structure St where
  mem : Article
  db : Article
  dbCategories : List String
  catTable : List String
  saveLog : List (List String)
deriving DecidableEq

/-- Model of `self.save(update_fields=fs)`: copy each named in-memory field to the
row and append `fs` to the save trace.  (`url` never occurs in an
`update_fields` list of this codebase; `updated_at` is a timestamp and is
kept only in the trace.) -/
def saveFields (st : St) (fs : List String) : St :=
  { st with
    db :=
      { url := st.db.url
        title := if fs.contains "title" then st.mem.title else st.db.title
        summary := if fs.contains "summary" then st.mem.summary else st.db.summary
        summary_ko :=
          if fs.contains "summary_ko" then st.mem.summary_ko else st.db.summary_ko
        reading_time_minutes :=
          if fs.contains "reading_time_minutes" then st.mem.reading_time_minutes
          else st.db.reading_time_minutes }
    saveLog := st.saveLog ++ [fs] }

/-- Value stored by `Article.calculate_reading_time`: `readtime.of_text` on a
non-empty text (its raised exception giving `None`), `None` on empty text. -/
def readingTimeResult (env : Env) (full_text : String) : Option Nat :=
  if full_text ≠ "" then
    match env.readtimeOf full_text with
    | some m => some m
    | none => none
  else
    none

/-- Embeds `Article.calculate_reading_time(self, full_text)` from
`curation/models.py`. -/
def calculate_reading_time (env : Env) (st : St) (full_text : String) : St :=
  { st with mem := { st.mem with reading_time_minutes := readingTimeResult env full_text } }

/-- Embeds `Article.translate_summary_to_korean(self)` from `curation/models.py`;
returns the new state and the returned status string. -/
def translate_summary_to_korean (env : Env) (st : St) : St × String :=
  if st.mem.summary = "" then
    ({ st with mem := { st.mem with summary_ko := "" } }, "No summary to translate.")
  else if truthy env.api_key = false then
    (st, "Error: OpenAI API key not found.")
  else
    match env.translate st.mem.summary with
    | Except.ok t =>
        let st1 := { st with mem := { st.mem with summary_ko := if t ≠ "" then pyStrip t else "" } }
        (saveFields st1 ["summary_ko", "updated_at"],
          "Summary translated successfully using OpenAI.")
    | Except.error e =>
        let st1 := { st with mem := { st.mem with summary_ko := "" } }
        (saveFields st1 ["summary_ko", "updated_at"],
          "Error during OpenAI translation: " ++ pyTake e 150)

/-- The hardcoded category vocabulary of `Article.assign_categories`. -/
def defined_category_names : List String :=
  ["Web Development", "MLOps", "Large Language Models",
   "Data Science", "AI General", "Software Engineering", "Other"]

/-- The `get_or_create` loop: ensure every defined name is in the table. -/
def ensureCategories (table : List String) : List String :=
  defined_category_names.foldl (fun t n => if t.contains n then t else t ++ [n]) table

/-- Parsing of the LLM response:
`[name.strip() for name in response_text.split(',') if name.strip()]`
applied to `chain.invoke(...).strip()`. -/
def parseAssigned (resp : String) : List String :=
  ((pySplitComma (pyStrip resp)).map pyStrip).filter (fun n => n != "")

/-- Reading of `Category.objects.filter(name__in=assigned).filter(name__in=defined)`
read back as names: the table entries that occur in both lists.  (The
queryset's `Meta` ordering is alphabetical; this development only ever uses
membership in the result, so the table order is kept.) -/
def validCategories (table : List String) (assigned : List String) : List String :=
  table.filter (fun n => assigned.contains n && defined_category_names.contains n)

/-- Embeds `Article.assign_categories(self)` from `curation/models.py`;
returns the new state and the returned status string. -/
def assign_categories (env : Env) (st : St) : St × String :=
  if st.mem.summary = "" then
    ({ st with dbCategories := [] }, "Error: No summary available to categorize.")
  else if truthy env.api_key = false then
    (st, "Error: OpenAI API key not found for categorization.")
  else
    let st1 := { st with catTable := ensureCategories st.catTable }
    match env.categorize st1.mem.summary with
    | Except.error e =>
        (st1, "Error during categorization: " ++ pyTake e 150)
    | Except.ok resp =>
        let assigned := parseAssigned resp
        let valid := validCategories st1.catTable assigned
        let st2 := { st1 with dbCategories := [] }
        if valid ≠ [] then
          ({ st2 with dbCategories := valid },
            "Article categories set to: " ++ String.intercalate ", " valid ++ ".")
        else if assigned.contains "Other" then
          if st1.catTable.contains "Other" then
            ({ st2 with dbCategories := ["Other"] }, "Article category set to: Other.")
          else
            (st2, "Warning: No valid categories assigned based on LLM response.")
        else
          (st2, "Warning: No valid categories assigned based on LLM response.")

/-- Value of `docs[0].metadata.get('title')` filtered by Python truthiness:
`some t` exactly when the metadata title exists and is non-empty. -/
def metaTitle (d : Doc) : Option String :=
  match d.title_meta with
  | some t => if t = "" then none else some t
  | none => none

/-- Title backfill of `fetch_and_summarize`: set `self.title` from the
loader metadata exactly when the current title is empty and the metadata
title is truthy. -/
def titleBackfill (st : St) (d : Doc) : St :=
  if st.mem.title = "" then
    match metaTitle d with
    | some t => { st with mem := { st.mem with title := t } }
    | none => st
  else st

/-- Embeds `Article.fetch_and_summarize(self)` from `curation/models.py`;
returns the new state and the returned status string. -/
def fetch_and_summarize (env : Env) (st : St) : St × String :=
  if st.mem.url = "" then (st, "Error: No URL provided.")
  else
    match env.load with
    | LoadResult.requestError e => (st, "Error fetching URL: " ++ e)
    | LoadResult.importError e => (st, "Error with required libraries: " ++ e)
    | LoadResult.otherError e => (st, "Unexpected error processing article: " ++ e)
    | LoadResult.ok docs =>
      match docs with
      | [] => (st, "Error: No content could be loaded from the URL.")
      | d :: _rest =>
        if d.page_content = "" then (st, "Error: No content could be loaded from the URL.")
        else
          let full_content_text := d.page_content
          let st1 := titleBackfill st d
          let st2 := calculate_reading_time env st1 full_content_text
          if truthy env.api_key = false then
            (saveFields st2 ["title", "reading_time_minutes", "updated_at"],
              "Error: OpenAI API key not found. Title/Reading Time saved.")
          else
            match env.summarize docs with
            | Except.error e => (st2, "Unexpected error processing article: " ++ e)
            | Except.ok summary_text =>
              if summary_text = "" then
                let st3 := { st2 with mem := { st2.mem with summary := "", summary_ko := "" } }
                (saveFields st3
                    ["title", "summary", "summary_ko", "reading_time_minutes", "updated_at"],
                  "Error extracting summary. Other details saved.")
              else
                let st3 := { st2 with mem := { st2.mem with summary := summary_text } }
                let catp :=
                  if st3.mem.summary ≠ "" then assign_categories env st3
                  else (st3, "Categorization skipped (no summary).")
                let st4 := catp.1
                let categorization_status := catp.2
                let trp := translate_summary_to_korean env st4
                let st5 := trp.1
                let translation_status := trp.2
                let st6 := saveFields st5
                  ["title", "summary", "summary_ko", "reading_time_minutes", "updated_at"]
                let translation_failed := strContains translation_status "Error"
                let final_message := "Fetch, Read Time, Summary completed."
                  ++ (if translation_failed then " Translation failed."
                      else " Translation completed.")
                  ++ " " ++ categorization_status
                (st6, final_message)

/-- One iteration of the admin action's loop: run the pipeline on the
article, then either add an error entry or bump `success_count`. -/
def adminStep (acc : Nat × List String) (item : Env × St) : Nat × List String :=
  let result := (fetch_and_summarize item.1 item.2).2
  if startswith result "Error" then
    (acc.1, acc.2 ++ [item.2.mem.url ++ ": " ++ result])
  else (acc.1 + 1, acc.2)

/-- The bulk admin action `summarize_selected_articles` from
`curation/admin.py`: run the pipeline over the selection, count successes and
collect `"<url>: <status>"` entries for every status starting with
`"Error"`.  (The two `message_user` calls only render these two values.) -/
def summarize_selected_articles (queryset : List (Env × St)) : Nat × List String :=
  queryset.foldl adminStep (0, [])

/-- The state reached after loading, title backfill, reading time, and a
successful non-empty summary `s` (`self.summary = summary_text`). -/
def withSummary (env : Env) (st : St) (d : Doc) (s : String) : St :=
  let st2 := calculate_reading_time env (titleBackfill st d) d.page_content
  { st2 with mem := { st2.mem with summary := s } }

/-- The category set installed by a successful categorization pass, as a
function of the pre-existing `Category` table and the raw LLM response only
(in particular not of the article's current associations). -/
def categoriesFromResponse (table : List String) (resp : String) : List String :=
  let assigned := parseAssigned resp
  let valid := validCategories (ensureCategories table) assigned
  if valid ≠ [] then valid
  else if assigned.contains "Other" then
    (if (ensureCategories table).contains "Other" then ["Other"] else [])
  else []

/-! ## Concrete sample worlds (used to evaluate the definitions) -/

/-- A loaded document with non-empty content and a metadata title. -/
def doc0 : Doc := { page_content := "hello world, this is some article text", title_meta := some "T0" }

/-- A fresh article row: URL set, everything else empty. -/
def art0 : Article :=
  { url := "http://example.com/a", title := "", summary := "", summary_ko := ""
    reading_time_minutes := none }

/-- An article row that already carries a title and a summary. -/
def art1 : Article :=
  { url := "http://example.com/a", title := "Kept Title", summary := "S0", summary_ko := ""
    reading_time_minutes := some 3 }

/-- Fresh-article state with a stale category association and a partially
filled category table. -/
def st0 : St :=
  { mem := art0, db := art0, dbCategories := ["Stale"], catTable := ["Other"], saveLog := [] }

/-- State for an article whose summary and title are already present. -/
def st1 : St :=
  { mem := art1, db := art0, dbCategories := ["Stale"], catTable := [], saveLog := [] }

/-- A fully successful environment. -/
def env0 : Env :=
  { load := LoadResult.ok [doc0]
    readtimeOf := fun _ => some 4
    api_key := some "sk-test"
    summarize := fun _ => Except.ok "S"
    translate := fun _ => Except.ok "K"
    categorize := fun _ => Except.ok "MLOps, Other" }

/-- Same world, but the loader raises a network error. -/
def envReqError : Env := { env0 with load := LoadResult.requestError "timeout" }

/-- Same world, but the loader extracts empty content. -/
def envEmptyContent : Env :=
  { env0 with load := LoadResult.ok [{ page_content := "", title_meta := some "T0" }] }

/-- Same world, but no `OPENAI_API_KEY` is configured. -/
def envNoKey : Env := { env0 with api_key := none }

/-- Same world, but the summarize chain yields an empty `output_text`. -/
def envEmptySummary : Env := { env0 with summarize := fun _ => Except.ok "" }

/-- Same world, but the translation chain raises. -/
def envTransFail : Env := { env0 with translate := fun _ => Except.error "boom" }

/-- Same world, but the categorization chain raises. -/
def envCatFail : Env := { env0 with categorize := fun _ => Except.error "crash" }

/-! ## Helper lemmas -/

lemma startswith_intro (s pre : String) (t : List Char) (h : s.data = pre.data ++ t) :
    startswith s pre = true := by
  simp only [startswith, decide_eq_true_eq]
  exact ⟨t, h.symm⟩

lemma startswith_append (a b : String) : startswith (a ++ b) a = true :=
  startswith_intro _ _ b.data (String.data_append a b)

lemma startswith_false_head (s pre : String) (c c' : Char) (ts tp : List Char)
    (hs : s.data = c :: ts) (hp : pre.data = c' :: tp) (h : c' ≠ c) :
    startswith s pre = false := by
  simp only [startswith, decide_eq_false_iff_not]
  rintro ⟨t, ht⟩
  rw [hp, hs] at ht
  simp only [List.cons_append, List.cons.injEq] at ht
  exact h ht.1

lemma saveFields_mem (st : St) (fs : List String) : (saveFields st fs).mem = st.mem := rfl

lemma saveFields_dbCategories (st : St) (fs : List String) :
    (saveFields st fs).dbCategories = st.dbCategories := rfl

lemma saveFields_catTable (st : St) (fs : List String) :
    (saveFields st fs).catTable = st.catTable := rfl

lemma saveFields_saveLog (st : St) (fs : List String) :
    (saveFields st fs).saveLog = st.saveLog ++ [fs] := rfl

lemma saveFields_trans_eq (st : St) :
    saveFields st ["summary_ko", "updated_at"] =
      { st with db := { st.db with summary_ko := st.mem.summary_ko },
                saveLog := st.saveLog ++ [["summary_ko", "updated_at"]] } := rfl

lemma saveFields_titlertm_eq (st : St) :
    saveFields st ["title", "reading_time_minutes", "updated_at"] =
      { st with
        db := { st.db with
                title := st.mem.title
                reading_time_minutes := st.mem.reading_time_minutes }
        saveLog := st.saveLog ++ [["title", "reading_time_minutes", "updated_at"]] } := rfl

lemma saveFields_final_eq (st : St) :
    saveFields st ["title", "summary", "summary_ko", "reading_time_minutes", "updated_at"] =
      { st with
        db := { url := st.db.url, title := st.mem.title, summary := st.mem.summary,
                summary_ko := st.mem.summary_ko,
                reading_time_minutes := st.mem.reading_time_minutes },
        saveLog := st.saveLog
          ++ [["title", "summary", "summary_ko", "reading_time_minutes", "updated_at"]] } := rfl

lemma assign_mem (env : Env) (st : St) : (assign_categories env st).1.mem = st.mem := by
  unfold assign_categories
  dsimp only
  repeat' split
  all_goals rfl

lemma assign_db (env : Env) (st : St) : (assign_categories env st).1.db = st.db := by
  unfold assign_categories
  dsimp only
  repeat' split
  all_goals rfl

lemma assign_saveLog (env : Env) (st : St) :
    (assign_categories env st).1.saveLog = st.saveLog := by
  unfold assign_categories
  dsimp only
  repeat' split
  all_goals rfl

lemma translate_mem_title (env : Env) (st : St) :
    (translate_summary_to_korean env st).1.mem.title = st.mem.title := by
  unfold translate_summary_to_korean
  repeat' split
  all_goals rfl

lemma translate_mem_url (env : Env) (st : St) :
    (translate_summary_to_korean env st).1.mem.url = st.mem.url := by
  unfold translate_summary_to_korean
  repeat' split
  all_goals rfl

lemma translate_mem_summary (env : Env) (st : St) :
    (translate_summary_to_korean env st).1.mem.summary = st.mem.summary := by
  unfold translate_summary_to_korean
  repeat' split
  all_goals rfl

lemma translate_mem_rtm (env : Env) (st : St) :
    (translate_summary_to_korean env st).1.mem.reading_time_minutes
      = st.mem.reading_time_minutes := by
  unfold translate_summary_to_korean
  repeat' split
  all_goals rfl

lemma translate_dbCategories (env : Env) (st : St) :
    (translate_summary_to_korean env st).1.dbCategories = st.dbCategories := by
  unfold translate_summary_to_korean
  repeat' split
  all_goals rfl

lemma translate_catTable (env : Env) (st : St) :
    (translate_summary_to_korean env st).1.catTable = st.catTable := by
  unfold translate_summary_to_korean
  repeat' split
  all_goals rfl

lemma translate_db_title (env : Env) (st : St) :
    (translate_summary_to_korean env st).1.db.title = st.db.title := by
  unfold translate_summary_to_korean
  repeat' split
  all_goals rfl

lemma translate_db_summary (env : Env) (st : St) :
    (translate_summary_to_korean env st).1.db.summary = st.db.summary := by
  unfold translate_summary_to_korean
  repeat' split
  all_goals rfl

lemma translate_db_rtm (env : Env) (st : St) :
    (translate_summary_to_korean env st).1.db.reading_time_minutes
      = st.db.reading_time_minutes := by
  unfold translate_summary_to_korean
  repeat' split
  all_goals rfl

lemma titleBackfill_kept (st : St) (d : Doc) (h : st.mem.title ≠ "") :
    titleBackfill st d = st := by
  unfold titleBackfill
  rw [if_neg h]

lemma titleBackfill_mem_url (st : St) (d : Doc) :
    (titleBackfill st d).mem.url = st.mem.url := by
  unfold titleBackfill
  repeat' split
  all_goals rfl

lemma titleBackfill_mem_summary (st : St) (d : Doc) :
    (titleBackfill st d).mem.summary = st.mem.summary := by
  unfold titleBackfill
  repeat' split
  all_goals rfl

lemma titleBackfill_mem_summary_ko (st : St) (d : Doc) :
    (titleBackfill st d).mem.summary_ko = st.mem.summary_ko := by
  unfold titleBackfill
  repeat' split
  all_goals rfl

lemma titleBackfill_db (st : St) (d : Doc) : (titleBackfill st d).db = st.db := by
  unfold titleBackfill
  repeat' split
  all_goals rfl

lemma titleBackfill_dbCategories (st : St) (d : Doc) :
    (titleBackfill st d).dbCategories = st.dbCategories := by
  unfold titleBackfill
  repeat' split
  all_goals rfl

lemma titleBackfill_catTable (st : St) (d : Doc) :
    (titleBackfill st d).catTable = st.catTable := by
  unfold titleBackfill
  repeat' split
  all_goals rfl

lemma titleBackfill_saveLog (st : St) (d : Doc) :
    (titleBackfill st d).saveLog = st.saveLog := by
  unfold titleBackfill
  repeat' split
  all_goals rfl

/-! ## Run characterizations of `fetch_and_summarize` -/

lemma run_request_error (env : Env) (st : St) (e : String)
    (hurl : st.mem.url ≠ "") (hload : env.load = LoadResult.requestError e) :
    fetch_and_summarize env st = (st, "Error fetching URL: " ++ e) := by
  unfold fetch_and_summarize
  rw [if_neg hurl, hload]

lemma run_import_error (env : Env) (st : St) (e : String)
    (hurl : st.mem.url ≠ "") (hload : env.load = LoadResult.importError e) :
    fetch_and_summarize env st = (st, "Error with required libraries: " ++ e) := by
  unfold fetch_and_summarize
  rw [if_neg hurl, hload]

lemma run_other_error (env : Env) (st : St) (e : String)
    (hurl : st.mem.url ≠ "") (hload : env.load = LoadResult.otherError e) :
    fetch_and_summarize env st = (st, "Unexpected error processing article: " ++ e) := by
  unfold fetch_and_summarize
  rw [if_neg hurl, hload]

lemma run_no_docs (env : Env) (st : St)
    (hurl : st.mem.url ≠ "") (hload : env.load = LoadResult.ok []) :
    fetch_and_summarize env st = (st, "Error: No content could be loaded from the URL.") := by
  unfold fetch_and_summarize
  rw [if_neg hurl, hload]

lemma run_empty_content (env : Env) (st : St) (d : Doc) (rest : List Doc)
    (hurl : st.mem.url ≠ "") (hload : env.load = LoadResult.ok (d :: rest))
    (hpc : d.page_content = "") :
    fetch_and_summarize env st = (st, "Error: No content could be loaded from the URL.") := by
  unfold fetch_and_summarize
  rw [if_neg hurl, hload]
  dsimp only
  rw [if_pos hpc]

lemma run_no_key (env : Env) (st : St) (d : Doc) (rest : List Doc)
    (hurl : st.mem.url ≠ "") (hload : env.load = LoadResult.ok (d :: rest))
    (hpc : d.page_content ≠ "") (hkey : truthy env.api_key = false) :
    fetch_and_summarize env st =
      (saveFields (calculate_reading_time env (titleBackfill st d) d.page_content)
          ["title", "reading_time_minutes", "updated_at"],
        "Error: OpenAI API key not found. Title/Reading Time saved.") := by
  unfold fetch_and_summarize
  rw [if_neg hurl, hload]
  dsimp only
  rw [if_neg hpc, if_pos hkey]

lemma run_empty_summary (env : Env) (st : St) (d : Doc) (rest : List Doc)
    (hurl : st.mem.url ≠ "") (hload : env.load = LoadResult.ok (d :: rest))
    (hpc : d.page_content ≠ "") (hkey : truthy env.api_key = true)
    (hsum : env.summarize (d :: rest) = Except.ok "") :
    fetch_and_summarize env st =
      (saveFields
          { calculate_reading_time env (titleBackfill st d) d.page_content with
            mem := { (calculate_reading_time env (titleBackfill st d) d.page_content).mem with
                     summary := ""
                     summary_ko := "" } }
          ["title", "summary", "summary_ko", "reading_time_minutes", "updated_at"],
        "Error extracting summary. Other details saved.") := by
  have hkey' : ¬ truthy env.api_key = false := by simp [hkey]
  unfold fetch_and_summarize
  rw [if_neg hurl, hload]
  dsimp only
  rw [if_neg hpc, if_neg hkey', hsum]
  dsimp only
  rw [if_pos rfl]

lemma run_success (env : Env) (st : St) (d : Doc) (rest : List Doc) (s : String)
    (hurl : st.mem.url ≠ "") (hload : env.load = LoadResult.ok (d :: rest))
    (hpc : d.page_content ≠ "") (hkey : truthy env.api_key = true)
    (hsum : env.summarize (d :: rest) = Except.ok s) (hs : s ≠ "") :
    fetch_and_summarize env st =
      (saveFields
          (translate_summary_to_korean env
            (assign_categories env (withSummary env st d s)).1).1
          ["title", "summary", "summary_ko", "reading_time_minutes", "updated_at"],
        "Fetch, Read Time, Summary completed."
          ++ (if strContains
                  (translate_summary_to_korean env
                    (assign_categories env (withSummary env st d s)).1).2 "Error"
              then " Translation failed."
              else " Translation completed.")
          ++ " " ++ (assign_categories env (withSummary env st d s)).2) := by
  have hkey' : ¬ truthy env.api_key = false := by simp [hkey]
  unfold fetch_and_summarize withSummary
  rw [if_neg hurl, hload]
  dsimp only
  rw [if_neg hpc, if_neg hkey', hsum]
  dsimp only
  rw [if_neg hs, if_pos hs]

/-! ## Branch characterizations of translator and categorizer -/

lemma translate_fail (env : Env) (st : St) (e : String)
    (hsum : st.mem.summary ≠ "") (hkey : truthy env.api_key = true)
    (hfail : env.translate st.mem.summary = Except.error e) :
    translate_summary_to_korean env st =
      (saveFields { st with mem := { st.mem with summary_ko := "" } }
          ["summary_ko", "updated_at"],
        "Error during OpenAI translation: " ++ pyTake e 150) := by
  have hkey' : ¬ truthy env.api_key = false := by simp [hkey]
  unfold translate_summary_to_korean
  rw [if_neg hsum, if_neg hkey', hfail]

lemma assign_fail (env : Env) (st : St) (e : String)
    (hsum : st.mem.summary ≠ "") (hkey : truthy env.api_key = true)
    (hfail : env.categorize st.mem.summary = Except.error e) :
    assign_categories env st =
      ({ st with catTable := ensureCategories st.catTable },
        "Error during categorization: " ++ pyTake e 150) := by
  have hkey' : ¬ truthy env.api_key = false := by simp [hkey]
  unfold assign_categories
  rw [if_neg hsum, if_neg hkey']
  dsimp only
  rw [hfail]

lemma assign_ok_dbCategories (env : Env) (st : St) (resp : String)
    (hsum : st.mem.summary ≠ "") (hkey : truthy env.api_key = true)
    (hok : env.categorize st.mem.summary = Except.ok resp) :
    (assign_categories env st).1.dbCategories = categoriesFromResponse st.catTable resp := by
  have hkey' : ¬ truthy env.api_key = false := by simp [hkey]
  unfold assign_categories categoriesFromResponse
  rw [if_neg hsum, if_neg hkey']
  dsimp only
  rw [hok]
  dsimp only
  by_cases h1 : validCategories (ensureCategories st.catTable) (parseAssigned resp) = []
  · by_cases h2 : "Other" ∈ parseAssigned resp
    · by_cases h3 : "Other" ∈ ensureCategories st.catTable
      · simp [h1, h2, h3]
      · simp [h1, h2, h3]
    · simp [h1, h2]
  · simp [h1]

lemma categoriesFromResponse_subset (table : List String) (resp : String) :
    ∀ c ∈ categoriesFromResponse table resp, c ∈ defined_category_names := by
  intro c hc
  unfold categoriesFromResponse at hc
  dsimp only at hc
  split at hc
  · unfold validCategories at hc
    have h := (List.mem_filter.mp hc).2
    rw [Bool.and_eq_true] at h
    simpa using h.2
  · split at hc
    · split at hc
      · simp only [List.mem_singleton] at hc
        subst hc
        decide
      · simp at hc
    · simp at hc

/-! ## Component preservation for `withSummary` -/

lemma withSummary_mem_summary (env : Env) (st : St) (d : Doc) (s : String) :
    (withSummary env st d s).mem.summary = s := rfl

lemma withSummary_mem_url (env : Env) (st : St) (d : Doc) (s : String) :
    (withSummary env st d s).mem.url = st.mem.url :=
  titleBackfill_mem_url st d

lemma withSummary_mem_summary_ko (env : Env) (st : St) (d : Doc) (s : String) :
    (withSummary env st d s).mem.summary_ko = st.mem.summary_ko :=
  titleBackfill_mem_summary_ko st d

lemma withSummary_db (env : Env) (st : St) (d : Doc) (s : String) :
    (withSummary env st d s).db = st.db :=
  titleBackfill_db st d

lemma withSummary_dbCategories (env : Env) (st : St) (d : Doc) (s : String) :
    (withSummary env st d s).dbCategories = st.dbCategories :=
  titleBackfill_dbCategories st d

lemma withSummary_catTable (env : Env) (st : St) (d : Doc) (s : String) :
    (withSummary env st d s).catTable = st.catTable :=
  titleBackfill_catTable st d

lemma withSummary_saveLog (env : Env) (st : St) (d : Doc) (s : String) :
    (withSummary env st d s).saveLog = st.saveLog :=
  titleBackfill_saveLog st d

/-! ## String-prefix facts about the produced status strings -/

lemma data_cons_append (a : String) (c : Char) (l : List Char) (x : String)
    (h : a.data = c :: l) : (a ++ x).data = c :: (l ++ x.data) := by
  rw [String.data_append, h, List.cons_append]

lemma startswith_fetch_msg (x y : String) :
    startswith ("Fetch, Read Time, Summary completed." ++ x ++ " " ++ y)
      "Fetch, Read Time, Summary completed." = true := by
  apply startswith_intro _ _ (x.data ++ (" ".data ++ y.data))
  simp [String.data_append]

lemma not_error_fetch_msg (x y : String) :
    startswith ("Fetch, Read Time, Summary completed." ++ x ++ " " ++ y) "Error" = false := by
  have h1 : ("Fetch, Read Time, Summary completed." ++ x).data
      = 'F' :: ("etch, Read Time, Summary completed.".data ++ x.data) :=
    data_cons_append _ _ _ _ rfl
  have h2 : ("Fetch, Read Time, Summary completed." ++ x ++ " ").data
      = 'F' :: (("etch, Read Time, Summary completed.".data ++ x.data) ++ " ".data) :=
    data_cons_append _ _ _ _ h1
  have h3 : ("Fetch, Read Time, Summary completed." ++ x ++ " " ++ y).data
      = 'F' :: ((("etch, Read Time, Summary completed.".data ++ x.data) ++ " ".data) ++ y.data) :=
    data_cons_append _ _ _ _ h2
  exact startswith_false_head _ _ 'F' 'E' _ _ h3 rfl (by decide)

lemma startswith_error_fetching (e : String) :
    startswith ("Error fetching URL: " ++ e) "Error fetching" = true := by
  apply startswith_intro _ _ (" URL: ".data ++ e.data)
  rw [String.data_append,
    show "Error fetching URL: ".data = "Error fetching".data ++ " URL: ".data by decide,
    List.append_assoc]

lemma startswith_error_translation (e : String) :
    startswith ("Error during OpenAI translation: " ++ pyTake e 150) "Error" = true := by
  apply startswith_intro _ _ (" during OpenAI translation: ".data ++ (pyTake e 150).data)
  rw [String.data_append,
    show "Error during OpenAI translation: ".data
        = "Error".data ++ " during OpenAI translation: ".data by decide,
    List.append_assoc]

lemma startswith_error_categorization (e : String) :
    startswith ("Error during categorization: " ++ pyTake e 150) "Error" = true := by
  apply startswith_intro _ _ (" during categorization: ".data ++ (pyTake e 150).data)
  rw [String.data_append,
    show "Error during categorization: ".data
        = "Error".data ++ " during categorization: ".data by decide,
    List.append_assoc]

lemma admin_foldl (qs : List (Env × St)) (n : Nat) (es : List String) :
    qs.foldl adminStep (n, es)
      = (n + (qs.filter
            (fun it => !(startswith (fetch_and_summarize it.1 it.2).2 "Error"))).length,
        es ++ (qs.filter
            (fun it => startswith (fetch_and_summarize it.1 it.2).2 "Error")).map
          (fun it => it.2.mem.url ++ ": " ++ (fetch_and_summarize it.1 it.2).2)) := by
  induction qs generalizing n es with
  | nil => simp
  | cons a tl ih =>
    rw [List.foldl_cons]
    by_cases hc : startswith (fetch_and_summarize a.1 a.2).2 "Error" = true
    · have hstep : adminStep (n, es) a
          = (n, es ++ [a.2.mem.url ++ ": " ++ (fetch_and_summarize a.1 a.2).2]) := by
        unfold adminStep
        rw [if_pos hc]
      rw [hstep, ih]
      simp [List.filter_cons, hc]
    · have hstep : adminStep (n, es) a = (n + 1, es) := by
        unfold adminStep
        rw [if_neg hc]
      rw [hstep, ih]
      simp [List.filter_cons, hc]
      omega

lemma calc_db (env : Env) (st : St) (t : String) :
    (calculate_reading_time env st t).db = st.db := rfl

lemma calc_dbCategories (env : Env) (st : St) (t : String) :
    (calculate_reading_time env st t).dbCategories = st.dbCategories := rfl

lemma calc_catTable (env : Env) (st : St) (t : String) :
    (calculate_reading_time env st t).catTable = st.catTable := rfl

lemma calc_saveLog (env : Env) (st : St) (t : String) :
    (calculate_reading_time env st t).saveLog = st.saveLog := rfl

lemma calc_mem_summary (env : Env) (st : St) (t : String) :
    (calculate_reading_time env st t).mem.summary = st.mem.summary := rfl

lemma calc_mem_summary_ko (env : Env) (st : St) (t : String) :
    (calculate_reading_time env st t).mem.summary_ko = st.mem.summary_ko := rfl

/-! ## Claim theorems -/

/-- C6: for every bulk admin selection, `summarize_selected_articles`
classifies an article as a failure exactly when its returned status string
begins with `"Error"`: the reported success count is the number of the other
articles, and the error list holds one `"<url>: <error detail>"` entry per
failing article, in order. -/
theorem c6_admin_classifies_by_error_marker (qs : List (Env × St)) :
    summarize_selected_articles qs
      = ((qs.filter
            (fun it => !(startswith (fetch_and_summarize it.1 it.2).2 "Error"))).length,
        (qs.filter
            (fun it => startswith (fetch_and_summarize it.1 it.2).2 "Error")).map
          (fun it => it.2.mem.url ++ ": " ++ (fetch_and_summarize it.1 it.2).2)) := by
  unfold summarize_selected_articles
  rw [admin_foldl]
  simp

/-- C9: the reading-time estimator stores `None` exactly on empty text or on
an internal `readtime` exception; when the estimator returns a count on
non-empty text, that count (a natural number, hence non-negative) is stored.
The embedding of `calculate_reading_time` is a total function, so the
exception is never propagated: it is absorbed into the stored `None`. -/
theorem c9_reading_time (env : Env) (st : St) (text : String) :
    (text = "" → (calculate_reading_time env st text).mem.reading_time_minutes = none)
    ∧ (∀ m : Nat, text ≠ "" → env.readtimeOf text = some m →
        (calculate_reading_time env st text).mem.reading_time_minutes = some m)
    ∧ (env.readtimeOf text = none →
        (calculate_reading_time env st text).mem.reading_time_minutes = none)
    ∧ (∀ m : Nat, (calculate_reading_time env st text).mem.reading_time_minutes = some m →
        0 ≤ m) := by
  refine ⟨?_, ?_, ?_, ?_⟩
  · intro h
    unfold calculate_reading_time readingTimeResult
    simp [h]
  · intro m h hm
    unfold calculate_reading_time readingTimeResult
    rw [if_pos h, hm]
  · intro h
    unfold calculate_reading_time readingTimeResult
    dsimp only
    split
    · rw [h]
    · rfl
  · intro m _
    exact Nat.zero_le m

/-- C10: a pipeline run never overwrites a non-empty title, whatever the
loader metadata holds; and whenever a run does change the in-memory title,
the title was empty beforehand (so the backfill from loader metadata happens
only on an empty title). -/
theorem c10_title_never_overwritten (env : Env) (st : St) (h : st.mem.title ≠ "") :
    (fetch_and_summarize env st).1.mem.title = st.mem.title
    ∧ ∀ (env2 : Env) (st2 : St),
        (fetch_and_summarize env2 st2).1.mem.title ≠ st2.mem.title → st2.mem.title = "" := by
  have key : ∀ (env2 : Env) (st2 : St), st2.mem.title ≠ "" →
      (fetch_and_summarize env2 st2).1.mem.title = st2.mem.title := by
    intro env2 st2 h2
    unfold fetch_and_summarize
    split
    · rfl
    split
    · rfl
    · rfl
    · rfl
    · split
      · rfl
      · split
        · rfl
        · dsimp only
          rw [titleBackfill_kept _ _ h2]
          split
          · rfl
          · split
            · rfl
            · split
              · rfl
              · dsimp only
                rw [saveFields_mem, translate_mem_title, assign_mem]
                rfl
  constructor
  · exact key env st h
  · intro env2 st2 hne
    by_contra hti
    exact hne (key env2 st2 hti)

/-- C1 (amended): when the content loader fails, the run terminates with the
state completely untouched (in particular, no save): a network error yields
a status starting with `"Error fetching"`, but a loader failure by empty
extracted content yields the status
`"Error: No content could be loaded from the URL."` (which does not start
with `"Error fetching"`), and a loader exception of another class yields
`"Unexpected error processing article: ..."` or
`"Error with required libraries: ..."`. -/
theorem c1_loader_failure_no_mutation_no_save (env : Env) (st : St)
    (hurl : st.mem.url ≠ "") :
    (∀ e, env.load = LoadResult.requestError e →
        fetch_and_summarize env st = (st, "Error fetching URL: " ++ e)
        ∧ startswith (fetch_and_summarize env st).2 "Error fetching" = true)
    ∧ (env.load = LoadResult.ok [] →
        fetch_and_summarize env st = (st, "Error: No content could be loaded from the URL."))
    ∧ (∀ d rest, env.load = LoadResult.ok (d :: rest) → d.page_content = "" →
        fetch_and_summarize env st = (st, "Error: No content could be loaded from the URL."))
    ∧ (∀ e, env.load = LoadResult.otherError e →
        fetch_and_summarize env st = (st, "Unexpected error processing article: " ++ e))
    ∧ (∀ e, env.load = LoadResult.importError e →
        fetch_and_summarize env st = (st, "Error with required libraries: " ++ e)) := by
  refine ⟨?_, ?_, ?_, ?_, ?_⟩
  · intro e hl
    refine ⟨run_request_error env st e hurl hl, ?_⟩
    rw [run_request_error env st e hurl hl]
    exact startswith_error_fetching e
  · intro hl
    exact run_no_docs env st hurl hl
  · intro d rest hl hpc
    exact run_empty_content env st d rest hurl hl hpc
  · intro e hl
    exact run_other_error env st e hurl hl
  · intro e hl
    exact run_import_error env st e hurl hl

/-- C1 counterexample: with a loader that extracts empty content (a loader
failure in the sense of the claim), the run's status is
`"Error: No content could be loaded from the URL."`, which does not start
with `"Error fetching"` — refuting the claim that every content-loader
failure terminates with a status starting with `"Error fetching"`. -/
theorem c1_counterexample :
    fetch_and_summarize envEmptyContent st0
        = (st0, "Error: No content could be loaded from the URL.")
    ∧ startswith (fetch_and_summarize envEmptyContent st0).2 "Error fetching" = false := by
  constructor
  · decide
  · decide

/-- Witness for C1 (amended) at a concrete input: a network error. -/
theorem c1_witness :
    fetch_and_summarize envReqError st0 = (st0, "Error fetching URL: " ++ "timeout")
    ∧ startswith (fetch_and_summarize envReqError st0).2 "Error fetching" = true :=
  (c1_loader_failure_no_mutation_no_save envReqError st0 (by decide)).1 "timeout" rfl

/-- Witness for C9 at concrete inputs: empty text gives `none`, non-empty
text with a successful estimate stores it. -/
theorem c9_witness :
    (calculate_reading_time env0 st0 "").mem.reading_time_minutes = none
    ∧ (calculate_reading_time env0 st0 "abc").mem.reading_time_minutes = some 4 :=
  ⟨(c9_reading_time env0 st0 "").1 rfl,
   (c9_reading_time env0 st0 "abc").2.1 4 (by decide) rfl⟩

/-- Witness for C10 at a concrete input: a run on an article whose title is
already `"Kept Title"` leaves the title unchanged. -/
theorem c10_witness :
    (fetch_and_summarize env0 st1).1.mem.title = st1.mem.title :=
  (c10_title_never_overwritten env0 st1 (by decide)).1

/-- C2: when the summarize chain yields an empty `output_text`, the run sets
`summary` and `summary_ko` (translatedSummary) to `""` in memory, persists
title, reading time and the empty summary fields, returns exactly the
summary-extraction error status (which starts with `"Error"`), and never
consults the categorizer: the category associations and `Category` table are
untouched and the whole run result is independent of the categorize
oracle. -/
theorem c2_empty_summary_partial_save (env : Env) (st : St) (d : Doc) (rest : List Doc)
    (f : String → Except String String)
    (hurl : st.mem.url ≠ "") (hload : env.load = LoadResult.ok (d :: rest))
    (hpc : d.page_content ≠ "") (hkey : truthy env.api_key = true)
    (hsum : env.summarize (d :: rest) = Except.ok "") :
    (fetch_and_summarize env st).1.mem.summary = ""
    ∧ (fetch_and_summarize env st).1.mem.summary_ko = ""
    ∧ (fetch_and_summarize env st).1.db.summary = ""
    ∧ (fetch_and_summarize env st).1.db.summary_ko = ""
    ∧ (fetch_and_summarize env st).1.db.title = (fetch_and_summarize env st).1.mem.title
    ∧ (fetch_and_summarize env st).1.db.reading_time_minutes
        = (fetch_and_summarize env st).1.mem.reading_time_minutes
    ∧ (fetch_and_summarize env st).2 = "Error extracting summary. Other details saved."
    ∧ startswith (fetch_and_summarize env st).2 "Error" = true
    ∧ (fetch_and_summarize env st).1.dbCategories = st.dbCategories
    ∧ (fetch_and_summarize env st).1.catTable = st.catTable
    ∧ fetch_and_summarize { env with categorize := f } st = fetch_and_summarize env st := by
  have h := run_empty_summary env st d rest hurl hload hpc hkey hsum
  have h2 := run_empty_summary { env with categorize := f } st d rest hurl hload hpc hkey hsum
  refine ⟨?_, ?_, ?_, ?_, ?_, ?_, ?_, ?_, ?_, ?_, ?_⟩
  · rw [h]
    rfl
  · rw [h]
    rfl
  · rw [h]
    rfl
  · rw [h]
    rfl
  · rw [h]
    rfl
  · rw [h]
    rfl
  · rw [h]
  · rw [h]
    dsimp only
    decide
  · rw [h]
    exact titleBackfill_dbCategories st d
  · rw [h]
    exact titleBackfill_catTable st d
  · rw [h2, h]
    rfl

/-- C3: if the content fetch succeeds but no API key is configured, the run
persists exactly title and reading time, leaves summary, translatedSummary
and the category associations unchanged (in memory and in the row), and
returns the status naming the missing API key. -/
theorem c3_missing_key_partial_save (env : Env) (st : St) (d : Doc) (rest : List Doc)
    (hurl : st.mem.url ≠ "") (hload : env.load = LoadResult.ok (d :: rest))
    (hpc : d.page_content ≠ "") (hkey : truthy env.api_key = false) :
    (fetch_and_summarize env st).1.db.title = (fetch_and_summarize env st).1.mem.title
    ∧ (fetch_and_summarize env st).1.db.reading_time_minutes
        = (fetch_and_summarize env st).1.mem.reading_time_minutes
    ∧ (fetch_and_summarize env st).1.mem.summary = st.mem.summary
    ∧ (fetch_and_summarize env st).1.mem.summary_ko = st.mem.summary_ko
    ∧ (fetch_and_summarize env st).1.db.summary = st.db.summary
    ∧ (fetch_and_summarize env st).1.db.summary_ko = st.db.summary_ko
    ∧ (fetch_and_summarize env st).1.dbCategories = st.dbCategories
    ∧ (fetch_and_summarize env st).1.catTable = st.catTable
    ∧ (fetch_and_summarize env st).2
        = "Error: OpenAI API key not found. Title/Reading Time saved."
    ∧ strContains (fetch_and_summarize env st).2 "API key" = true := by
  have h := run_no_key env st d rest hurl hload hpc hkey
  refine ⟨?_, ?_, ?_, ?_, ?_, ?_, ?_, ?_, ?_, ?_⟩
  · rw [h]
    rfl
  · rw [h]
    rfl
  · rw [h]
    exact titleBackfill_mem_summary st d
  · rw [h]
    exact titleBackfill_mem_summary_ko st d
  · rw [h, saveFields_titlertm_eq]
    dsimp only
    rw [calc_db, titleBackfill_db]
  · rw [h, saveFields_titlertm_eq]
    dsimp only
    rw [calc_db, titleBackfill_db]
  · rw [h, saveFields_dbCategories, calc_dbCategories, titleBackfill_dbCategories]
  · rw [h, saveFields_catTable, calc_catTable, titleBackfill_catTable]
  · rw [h]
  · rw [h]
    dsimp only
    decide

/-- C4: after a successful completion call inside the categorizer, the
article's category associations equal a function of the raw LLM response and
the pre-existing `Category` table only — in particular they are fully
replaced, independently of the previous associations — and every installed
name belongs to the fixed vocabulary. -/
theorem c4_categories_replaced_within_vocabulary (env : Env) (st : St) (resp : String)
    (hsum : st.mem.summary ≠ "") (hkey : truthy env.api_key = true)
    (hok : env.categorize st.mem.summary = Except.ok resp) :
    (assign_categories env st).1.dbCategories = categoriesFromResponse st.catTable resp
    ∧ ∀ c ∈ (assign_categories env st).1.dbCategories, c ∈ defined_category_names := by
  have h := assign_ok_dbCategories env st resp hsum hkey hok
  refine ⟨h, ?_⟩
  rw [h]
  exact categoriesFromResponse_subset st.catTable resp

/-- C5: if the completion call inside the categorizer raises, categorization
returns the categorization-failure status (starting with `"Error"`) and the
article's existing category associations are untouched; moreover, whenever a
call to the categorizer on a summarized article changes the associations at
all, its completion call must have succeeded. -/
theorem c5_categorization_failure_untouched (env : Env) (st : St) (e : String)
    (hsum : st.mem.summary ≠ "") (hkey : truthy env.api_key = true)
    (hfail : env.categorize st.mem.summary = Except.error e) :
    (assign_categories env st).1.dbCategories = st.dbCategories
    ∧ (assign_categories env st).2 = "Error during categorization: " ++ pyTake e 150
    ∧ startswith (assign_categories env st).2 "Error" = true
    ∧ ∀ (env2 : Env) (st2 : St), st2.mem.summary ≠ "" →
        (assign_categories env2 st2).1.dbCategories ≠ st2.dbCategories →
        ∃ r, env2.categorize st2.mem.summary = Except.ok r := by
  have h := assign_fail env st e hsum hkey hfail
  refine ⟨?_, ?_, ?_, ?_⟩
  · rw [h]
  · rw [h]
  · rw [h]
    exact startswith_error_categorization e
  · intro env2 st2 h2 hne
    cases hc : env2.categorize st2.mem.summary with
    | ok r => exact ⟨r, rfl⟩
    | error e2 =>
      exfalso
      apply hne
      cases hk : truthy env2.api_key with
      | false =>
        unfold assign_categories
        rw [if_neg h2, if_pos hk]
      | true =>
        rw [assign_fail env2 st2 e2 h2 hk hc]

/-- C7: whenever the run reaches a successful non-empty summary, even if
translation and/or categorization subsequently fail, the returned status
begins with `"Fetch, Read Time, Summary completed."` and never with
`"Error"`, so the bulk admin action counts the article as a success. -/
theorem c7_late_failure_counts_as_success (env : Env) (st : St) (d : Doc)
    (rest : List Doc) (s : String)
    (hurl : st.mem.url ≠ "") (hload : env.load = LoadResult.ok (d :: rest))
    (hpc : d.page_content ≠ "") (hkey : truthy env.api_key = true)
    (hsum : env.summarize (d :: rest) = Except.ok s) (hs : s ≠ "")
    (_hfail : (∃ e, env.translate s = Except.error e)
        ∨ (∃ e, env.categorize s = Except.error e)) :
    startswith (fetch_and_summarize env st).2 "Fetch, Read Time, Summary completed." = true
    ∧ startswith (fetch_and_summarize env st).2 "Error" = false
    ∧ summarize_selected_articles [(env, st)] = (1, []) := by
  have h := run_success env st d rest s hurl hload hpc hkey hsum hs
  have h1 : startswith (fetch_and_summarize env st).2
      "Fetch, Read Time, Summary completed." = true := by
    rw [h]
    exact startswith_fetch_msg _ _
  have h2 : startswith (fetch_and_summarize env st).2 "Error" = false := by
    rw [h]
    exact not_error_fetch_msg _ _
  refine ⟨h1, h2, ?_⟩
  unfold summarize_selected_articles
  rw [List.foldl_cons, List.foldl_nil]
  unfold adminStep
  dsimp only
  rw [h2]
  simp

/-- C8: when the translation chain raises during a run that reached a
non-empty summary, the translator sets `summary_ko` (translatedSummary) to
`""`, persists it immediately by its own save (the save-log shows the
`summary_ko` save strictly before the pipeline's final save), returns a
status starting with `"Error"`, and the pipeline run does not abort: it
still performs the final save and returns the composed
`"Fetch, Read Time, Summary completed."` status. -/
theorem c8_translation_failure_durable_empty (env : Env) (st : St) (d : Doc)
    (rest : List Doc) (s e : String)
    (hurl : st.mem.url ≠ "") (hload : env.load = LoadResult.ok (d :: rest))
    (hpc : d.page_content ≠ "") (hkey : truthy env.api_key = true)
    (hsum : env.summarize (d :: rest) = Except.ok s) (hs : s ≠ "")
    (hfail : env.translate s = Except.error e) :
    (translate_summary_to_korean env (assign_categories env (withSummary env st d s)).1).2
        = "Error during OpenAI translation: " ++ pyTake e 150
    ∧ startswith
        (translate_summary_to_korean env
          (assign_categories env (withSummary env st d s)).1).2 "Error" = true
    ∧ (translate_summary_to_korean env
        (assign_categories env (withSummary env st d s)).1).1.mem.summary_ko = ""
    ∧ (translate_summary_to_korean env
        (assign_categories env (withSummary env st d s)).1).1.db.summary_ko = ""
    ∧ (fetch_and_summarize env st).1.mem.summary_ko = ""
    ∧ (fetch_and_summarize env st).1.db.summary_ko = ""
    ∧ (fetch_and_summarize env st).1.saveLog
        = st.saveLog ++ [["summary_ko", "updated_at"],
            ["title", "summary", "summary_ko", "reading_time_minutes", "updated_at"]]
    ∧ startswith (fetch_and_summarize env st).2
        "Fetch, Read Time, Summary completed." = true := by
  have hAs : (assign_categories env (withSummary env st d s)).1.mem.summary = s := by
    rw [assign_mem]
    rfl
  have hsumA : (assign_categories env (withSummary env st d s)).1.mem.summary ≠ "" := by
    rw [hAs]
    exact hs
  have hfailA : env.translate (assign_categories env (withSummary env st d s)).1.mem.summary
      = Except.error e := by
    rw [hAs]
    exact hfail
  have htr := translate_fail env (assign_categories env (withSummary env st d s)).1
    e hsumA hkey hfailA
  have hrun := run_success env st d rest s hurl hload hpc hkey hsum hs
  refine ⟨?_, ?_, ?_, ?_, ?_, ?_, ?_, ?_⟩
  · rw [htr]
  · rw [htr]
    exact startswith_error_translation e
  · rw [htr]
    rfl
  · rw [htr]
    rfl
  · rw [hrun]
    dsimp only
    rw [saveFields_mem, htr]
    rfl
  · rw [hrun]
    dsimp only
    rw [htr]
    rfl
  · rw [hrun]
    dsimp only
    rw [saveFields_saveLog, htr]
    dsimp only
    rw [saveFields_saveLog]
    dsimp only
    rw [assign_saveLog, withSummary_saveLog]
    simp
  · rw [hrun]
    dsimp only
    exact startswith_fetch_msg _ _

/-- Witness for C2 at a concrete input: empty summarizer output. -/
theorem c2_witness :
    (fetch_and_summarize envEmptySummary st0).1.mem.summary = ""
    ∧ (fetch_and_summarize envEmptySummary st0).2
        = "Error extracting summary. Other details saved." := by
  have h := c2_empty_summary_partial_save envEmptySummary st0 doc0 []
    (fun _ => Except.error "x") (by decide) rfl (by decide) rfl rfl
  exact ⟨h.1, h.2.2.2.2.2.2.1⟩

/-- Witness for C3 at a concrete input: no API key configured. -/
theorem c3_witness :
    (fetch_and_summarize envNoKey st0).2
        = "Error: OpenAI API key not found. Title/Reading Time saved."
    ∧ (fetch_and_summarize envNoKey st0).1.dbCategories = st0.dbCategories := by
  have h := c3_missing_key_partial_save envNoKey st0 doc0 [] (by decide) rfl (by decide) rfl
  exact ⟨h.2.2.2.2.2.2.2.2.1, h.2.2.2.2.2.2.1⟩

/-- Witness for C4 at a concrete input: a response naming two vocabulary
categories replaces the stale association. -/
theorem c4_witness :
    (assign_categories env0 st1).1.dbCategories
      = categoriesFromResponse st1.catTable "MLOps, Other" :=
  (c4_categories_replaced_within_vocabulary env0 st1 "MLOps, Other"
    (by decide) rfl rfl).1

/-- Witness for C5 at a concrete input: a raising categorize chain. -/
theorem c5_witness :
    (assign_categories envCatFail st1).1.dbCategories = st1.dbCategories
    ∧ (assign_categories envCatFail st1).2
        = "Error during categorization: " ++ pyTake "crash" 150 := by
  have h := c5_categorization_failure_untouched envCatFail st1 "crash"
    (by decide) rfl rfl
  exact ⟨h.1, h.2.1⟩

/-- Witness for C7 at a concrete input: translation raises, yet the admin
action counts the article as a success. -/
theorem c7_witness :
    startswith (fetch_and_summarize envTransFail st0).2
        "Fetch, Read Time, Summary completed." = true
    ∧ summarize_selected_articles [(envTransFail, st0)] = (1, []) := by
  have h := c7_late_failure_counts_as_success envTransFail st0 doc0 [] "S"
    (by decide) rfl (by decide) rfl rfl (by decide) (Or.inl ⟨"boom", rfl⟩)
  exact ⟨h.1, h.2.2⟩

/-- Witness for C8 at a concrete input: a raising translation chain. -/
theorem c8_witness :
    (fetch_and_summarize envTransFail st0).1.mem.summary_ko = ""
    ∧ (fetch_and_summarize envTransFail st0).1.saveLog
        = st0.saveLog ++ [["summary_ko", "updated_at"],
            ["title", "summary", "summary_ko", "reading_time_minutes", "updated_at"]] := by
  have h := c8_translation_failure_durable_empty envTransFail st0 doc0 [] "S" "boom"
    (by decide) rfl (by decide) rfl rfl (by decide) rfl
  exact ⟨h.2.2.2.2.1, h.2.2.2.2.2.2.1⟩

end Curation
